import Mathlib

/-!
Verification of the zerospeech2021 scoring/aggregation pipeline.

This file gives a shallow embedding of the scoring core of the
`zerospeech2021` benchmark tool and proves properties of it.  Python
floats are modelled by `ℚ` (their ordered-field behaviour on the finite
values the pipeline handles); the final Spearman coefficient, which
involves a square root, lives in `ℝ`.  Pandas data frames are modelled
by lists of rows (structures holding exactly the columns the embedded
code touches), raised exceptions by `Except Err`, and `print` output by
lists of strings.  Each definition is named after and translated from
the corresponding function of the source (`lexical.py`, `syntactic.py`,
`semantic.py`, `phonetic.py`, `leaderboard.py`).
-/

/-- The kinds of exception raised by the embedded code
(`zerospeech2021.exception` plus Python built-ins). -/
inductive Err where
  | valueError (msg : String)
  | formatError (lineno : Nat) (msg : String)
  | mismatchError (msg : String) (expected : List String) (observed : List String)
  | validationError (msg : String)
  | entryMissingError (source : String) (expected : String)
  | fileFormatError (file : String) (msg : String)
  | fileNotFoundError (msg : String)
  | keyError (key : String)
  | assertionError
  | zeroDivisionError
  deriving Repr, DecidableEq

instance {ε α : Type} [DecidableEq ε] [DecidableEq α] : DecidableEq (Except ε α) :=
  fun a b =>
    match a, b with
    | .ok x, .ok y =>
      if h : x = y then .isTrue (by rw [h]) else .isFalse (by simp [h])
    | .error e, .error e' =>
      if h : e = e' then .isTrue (by rw [h]) else .isFalse (by simp [h])
    | .ok _, .error _ => .isFalse (by simp)
    | .error _, .ok _ => .isFalse (by simp)

/-- Is an `Except` result a `MismatchError`? -/
def errIsMismatch {α : Type} : Except Err α → Bool
  | .error (.mismatchError _ _ _) => true
  | _ => false

/-- Mean of a list of rationals (`pandas` `.mean()` / `np.mean`); the mean of
an empty list, `NaN` in pandas, is modelled as the junk value `0` (callers
that can meet the empty case guard it explicitly). -/
def listMean (l : List ℚ) : ℚ := l.sum / l.length

/-- Sample variance `Σ (x - mean)² / (n - 1)` (the square of the pandas
sample standard deviation); callers guard `n ≤ 1`. -/
def sampleVar (l : List ℚ) : ℚ :=
  ((l.map fun v => (v - listMean l) ^ 2).sum) / ((l.length - 1 : ℕ) : ℚ)

/-- Sample standard deviation as reported by pandas `.agg(std='std')`:
`NaN` (`none`) when the group has fewer than two members. -/
noncomputable def sampleStd (l : List ℚ) : Option ℝ :=
  if l.length ≤ 1 then none else some (Real.sqrt (sampleVar l))

/-- `np.average(values, weights=w)`: weighted mean.  A zero weight sum
(`ZeroDivisionError` in numpy) is junk-valued `0`; the pipeline's weights
are positive counts. -/
def weightedAvg (values weights : List ℚ) : ℚ :=
  ((values.zip weights).map fun p => p.1 * p.2).sum / weights.sum

/-- Insert into a sorted list (helper for `sortBy`). -/
def insertSorted {α : Type} (le : α → α → Bool) (a : α) : List α → List α
  | [] => [a]
  | b :: t => if le a b then a :: b :: t else b :: insertSorted le a t

/-- Stable insertion sort, modelling the key ordering done by pandas
`groupby(..., sort=True)` and `unstack()`. -/
def sortBy {α : Type} (le : α → α → Bool) (l : List α) : List α :=
  l.foldr (insertSorted le) []

/-- Python set equality `set(a) == set(b)` on two key lists. -/
def sameKeys (a b : List String) : Bool :=
  a.all (fun s => s ∈ b) && b.all (fun s => s ∈ a)

/-- The items of `collections.Counter(l)` with multiplicity `> 1`,
in first-appearance order. -/
def duplicateItems (l : List String) : List String :=
  l.dedup.filter fun f => 1 < l.count f

/-- String order used when pandas sorts string group keys. -/
def strLe (a b : String) : Bool := a ≤ b

/-- The per-row pair comparison score computed by `evaluate_by_pair`
(identical in `lexical.py` and `syntactic.py`):
`0.5 * (score_pos == score_neg) + (score_pos > score_neg)`,
with Python booleans coerced to `0`/`1`. -/
def pairScore (p n : ℚ) : ℚ :=
  (1 / 2) * (if p = n then 1 else 0) + (if p > n then 1 else 0)

/-- A `n`/`score`/`std` summary row produced by the banding aggregators
(`.agg(n='count', score='mean', std='std')`): `n` counts the non-null
scores of the band (scores are never null here, so it is the band size),
`score` is `NaN` (`none`) for an empty band and `std` is `NaN` for a band
with fewer than two members. -/
structure CatSummary (κ : Type) where
  key : κ
  n : Nat
  score : Option ℚ
  std : Option ℝ

/-- Build the summary row of one band from the scores falling in it. -/
noncomputable def mkSummary {κ : Type} (key : κ) (scores : List ℚ) : CatSummary κ :=
  { key := key
    n := scores.length
    score := if scores.isEmpty then none else some (listMean scores)
    std := sampleStd scores }

namespace Lexical

/-- One row of the lexical gold file (columns used by the evaluation;
the unused `phones` column is dropped by `load_data`). -/
structure GoldRow where
  filename : String
  id : String
  voice : String
  frequency : ℤ
  word : String
  length : ℤ
  correct : Nat
  deriving Repr, DecidableEq

/-- One line of the submission score file. -/
structure SubRow where
  filename : String
  score : ℚ
  deriving Repr, DecidableEq

/-- A gold row with its submitted score attached (the row of
`pandas.concat([gold, score], axis=1)` after dropping `filename`). -/
structure MergedRow where
  id : String
  voice : String
  frequency : ℤ
  word : String
  length : ℤ
  correct : Nat
  score : ℚ
  deriving Repr, DecidableEq

/-- One row of the frame returned by `load_data`: a (word, non word)
pair with the attribute columns kept from the `correct == 1` row. -/
structure DataRow where
  id : String
  voice : String
  frequency : ℤ
  word : String
  length : ℤ
  scoreWord : ℚ
  nonWord : String
  scoreNonWord : ℚ
  deriving Repr, DecidableEq

/-- One row of the frame returned by `evaluate_by_pair`. -/
structure PairRow where
  word : String
  nonWord : String
  frequency : ℤ
  length : ℤ
  score : ℚ
  deriving Repr, DecidableEq

/-- Attach each gold row's submitted score (the alignment performed by
`pandas.concat([gold, score], axis=1)`; the key-set check of `load_data`
guarantees every lookup succeeds, `0` is dead junk). -/
def mergeScores (gold : List GoldRow) (sub : List SubRow) : List MergedRow :=
  gold.map fun g =>
    { id := g.id, voice := g.voice, frequency := g.frequency, word := g.word
      length := g.length, correct := g.correct
      score := ((sub.find? fun s => s.filename = g.filename).map SubRow.score).getD 0 }

/-- `data.loc[data['correct'] == 1]`, in file order. -/
def wRows (data : List MergedRow) : List MergedRow :=
  data.filter fun r => r.correct = 1

/-- `data.loc[data['correct'] == 0]`, in file order. -/
def nwRows (data : List MergedRow) : List MergedRow :=
  data.filter fun r => r.correct = 0

/-- Combine the k-th positive and k-th negative row into one pair row:
id, voice, frequency, word, length and the word score come from the
positive (`w_`) row, the non-word text and its score from the negative
(`nw_`) row (all other `nw_` columns are dropped by `load_data`). -/
def mkDataRow (w nw : MergedRow) : DataRow :=
  { id := w.id, voice := w.voice, frequency := w.frequency, word := w.word
    length := w.length, scoreWord := w.score
    nonWord := nw.word, scoreNonWord := nw.score }

/-- `lexical.load_data`: checks that the gold and submission key sets
coincide (raising the generic `ValueError` of the source when they do
not), merges the two tables and pairs the `correct == 1` rows with the
`correct == 0` rows positionally (`reset_index` on both halves followed
by `pandas.concat(axis=1)` aligns them by their new positional index). -/
def load_data (gold : List GoldRow) (sub : List SubRow) :
    Except Err (List DataRow) :=
  if sameKeys (gold.map GoldRow.filename) (sub.map SubRow.filename) then
    let data := mergeScores gold sub
    .ok (List.zipWith mkDataRow (wRows data) (nwRows data))
  else
    .error (.valueError ("mismatch between gold and submission !"))

/-- The filename-set stage of `lexical.validate`: duplicate detection via
`collections.Counter`, then Python-set comparison of required and
submitted names.  Both `MismatchError`s carry the full collections the
source passes (`[]`/duplicates, respectively required/submitted), not
the set differences. -/
def validate_filenames (required submitted : List String) : Except Err Unit :=
  if duplicateItems submitted ≠ [] then
    .error (.mismatchError ("duplicates found") [] (duplicateItems submitted))
  else if sameKeys required submitted then .ok ()
  else .error (.mismatchError ("mismatch in filenames") required submitted)

/-- `lexical.evaluate_by_pair`: per-row comparison scores followed by
`groupby('id')` taking word / non word / frequency / length from the
first row of each group and the mean score across voices. -/
def evaluate_by_pair (data : List DataRow) : List PairRow :=
  (sortBy strLe ((data.map DataRow.id).dedup)).map fun i =>
    let g := data.filter fun r => r.id = i
    { word := ((g.head?.map DataRow.word).getD (""))
      nonWord := ((g.head?.map DataRow.nonWord).getD (""))
      frequency := ((g.head?.map DataRow.frequency).getD 0)
      length := ((g.head?.map DataRow.length).getD 0)
      score := listMean (g.map fun r => pairScore r.scoreWord r.scoreNonWord) }

/-- The five frequency bands of `evaluate_by_frequency`. -/
inductive FreqBand where
  | oov | b1to5 | b6to20 | b21to100 | gt100
  deriving Repr, DecidableEq

/-- All five band labels, in the order `pandas.cut` declares them. -/
def allFreqBands : List FreqBand :=
  [.oov, .b1to5, .b6to20, .b21to100, .gt100]

/-- `pandas.cut(f, [0, 1, 5, 20, 100, inf], right=False)`: half-open
bands `[0,1)`, `[1,5)`, `[5,20)`, `[20,100)`, `[100,∞)`; values outside
every bin (negative frequencies) get the null band `none`. -/
def freqBand (f : ℚ) : Option FreqBand :=
  if 0 ≤ f ∧ f < 1 then some .oov
  else if 1 ≤ f ∧ f < 5 then some .b1to5
  else if 5 ≤ f ∧ f < 20 then some .b6to20
  else if 20 ≤ f ∧ f < 100 then some .b21to100
  else if 100 ≤ f then some .gt100
  else none

/-- `lexical.evaluate_by_frequency`: cut the frequency column into the
five labelled bands and aggregate the scores per band.  Grouping by this
categorical produces one row per declared band (pandas
`observed=False`), while rows whose band is null — negative frequencies —
belong to no group and are dropped. -/
noncomputable def evaluate_by_frequency (by_pair : List PairRow) :
    List (CatSummary FreqBand) :=
  allFreqBands.map fun b =>
    mkSummary b
      (((by_pair.filter fun r => freqBand (r.frequency : ℚ) = some b).map PairRow.score))

/-- Integer order used by `groupby(length)`. -/
def intLe (a b : ℤ) : Bool := a ≤ b

/-- `lexical.evaluate_by_length`: group scores by the integer length
value (one row per distinct length present, keys sorted). -/
noncomputable def evaluate_by_length (by_pair : List PairRow) :
    List (CatSummary ℤ) :=
  (sortBy intLe ((by_pair.map PairRow.length).dedup)).map fun v =>
    mkSummary v ((by_pair.filter fun r => r.length = v).map PairRow.score)

end Lexical

namespace Syntactic

/-- One row of the syntactic gold file (columns used by the evaluation). -/
structure GoldRow where
  filename : String
  id : String
  voice : String
  type : String
  subtype : String
  transcription : String
  correct : Nat
  deriving Repr, DecidableEq

/-- One line of the submission score file. -/
structure SubRow where
  filename : String
  score : ℚ
  deriving Repr, DecidableEq

/-- A gold row with its submitted score attached. -/
structure MergedRow where
  id : String
  voice : String
  type : String
  subtype : String
  transcription : String
  correct : Nat
  score : ℚ
  deriving Repr, DecidableEq

/-- One row of the frame returned by `syntactic.load_data`: a
(sentence, non sentence) pair with the attribute columns kept from the
`correct == 1` row. -/
structure DataRow where
  id : String
  voice : String
  type : String
  subtype : String
  sentence : String
  scoreSentence : ℚ
  nonSentence : String
  scoreNonSentence : ℚ
  deriving Repr, DecidableEq

/-- One row of the frame returned by `syntactic.evaluate_by_pair`. -/
structure PairRow where
  type : String
  subtype : String
  sentence : String
  nonSentence : String
  score : ℚ
  deriving Repr, DecidableEq

/-- Attach each gold row's submitted score (as in the lexical task, the
key-set check makes every lookup succeed). -/
def mergeScores (gold : List GoldRow) (sub : List SubRow) : List MergedRow :=
  gold.map fun g =>
    { id := g.id, voice := g.voice, type := g.type, subtype := g.subtype
      transcription := g.transcription, correct := g.correct
      score := ((sub.find? fun s => s.filename = g.filename).map SubRow.score).getD 0 }

/-- `data.loc[data['correct'] == 1]`, in file order. -/
def sRows (data : List MergedRow) : List MergedRow :=
  data.filter fun r => r.correct = 1

/-- `data.loc[data['correct'] == 0]`, in file order. -/
def nsRows (data : List MergedRow) : List MergedRow :=
  data.filter fun r => r.correct = 0

/-- Combine the k-th positive and k-th negative row into one pair row:
id, voice, type, subtype, the sentence text and its score come from the
positive (`s_`) row, the non-sentence text and its score from the
negative (`ns_`) row. -/
def mkDataRow (s ns : MergedRow) : DataRow :=
  { id := s.id, voice := s.voice, type := s.type, subtype := s.subtype
    sentence := s.transcription, scoreSentence := s.score
    nonSentence := ns.transcription, scoreNonSentence := ns.score }

/-- `syntactic.load_data`: same structure as the lexical one — generic
`ValueError` on key-set mismatch, then positional pairing of the
`correct == 1` rows with the `correct == 0` rows. -/
def load_data (gold : List GoldRow) (sub : List SubRow) :
    Except Err (List DataRow) :=
  if sameKeys (gold.map GoldRow.filename) (sub.map SubRow.filename) then
    let data := mergeScores gold sub
    .ok (List.zipWith mkDataRow (sRows data) (nsRows data))
  else
    .error (.valueError ("mismatch between gold and submission !"))

/-- Lexicographic order on (type, subtype, id) used by
`groupby(['type', 'subtype', 'id'])`. -/
def tripleLe (a b : String × String × String) : Bool :=
  a.1 < b.1 ∨ (a.1 = b.1 ∧ (a.2.1 < b.2.1 ∨ (a.2.1 = b.2.1 ∧ a.2.2 ≤ b.2.2)))

/-- `syntactic.evaluate_by_pair`: per-row comparison scores followed by
`groupby(['type', 'subtype', 'id'])`, taking type / subtype / sentence /
non sentence from the first row of each group and the mean score across
voices. -/
def evaluate_by_pair (data : List DataRow) : List PairRow :=
  (sortBy tripleLe ((data.map fun r => (r.type, r.subtype, r.id)).dedup)).map fun k =>
    let g := data.filter fun r => (r.type, r.subtype, r.id) = k
    { type := ((g.head?.map DataRow.type).getD (""))
      subtype := ((g.head?.map DataRow.subtype).getD (""))
      sentence := ((g.head?.map DataRow.sentence).getD (""))
      nonSentence := ((g.head?.map DataRow.nonSentence).getD (""))
      score := listMean (g.map fun r => pairScore r.scoreSentence r.scoreNonSentence) }

/-- Lexicographic order on (type, subtype) used by
`groupby([type, subtype])`. -/
def pairLe (a b : String × String) : Bool :=
  a.1 < b.1 ∨ (a.1 = b.1 ∧ a.2 ≤ b.2)

/-- `syntactic.evaluate_by_type`: group the scores by the categorical
pair (type, subtype), one summary row per pair present in the data. -/
noncomputable def evaluate_by_type (by_pair : List PairRow) :
    List (CatSummary (String × String)) :=
  (sortBy pairLe ((by_pair.map fun r => (r.type, r.subtype)).dedup)).map fun k =>
    mkSummary k
      ((by_pair.filter fun r => (r.type, r.subtype) = k).map PairRow.score)

end Syntactic

namespace Semantic

/-- One row of the semantic gold file (columns used by the distance
computation). -/
structure GoldRow where
  filename : String
  voice : String
  word : String
  type : String
  deriving Repr, DecidableEq

/-- One row of the pooling frame `[filename, type, pooling]` built in
`semantic.evaluate` (the `type` column is not consulted afterwards). -/
structure PoolRow where
  filename : String
  pooling : List ℚ
  deriving Repr, DecidableEq

/-- One row of the semantic pairs file. -/
structure PairsRow where
  type : String
  dataset : String
  word1 : String
  word2 : String
  similarity : Option ℚ
  relatedness : Option ℚ
  deriving Repr, DecidableEq

/-- The tokens (filenames) of one word in the librispeech part of the
gold table: `gold['filename'][gold['word'] == w]` after the
`type == 'librispeech'` filter. -/
def libTokens (gold : List GoldRow) (w : String) : List String :=
  ((gold.filter fun r => r.type = "librispeech").filter fun r => r.word = w).map
    GoldRow.filename

/-- The (filename, voice) tokens of one word in the synthetic part of
the gold table. -/
def synTokens (gold : List GoldRow) (w : String) : List (String × String) :=
  ((gold.filter fun r => r.type = "synthetic").filter fun r => r.word = w).map
    fun r => (r.filename, r.voice)

/-- `tokens_1.merge(tokens_2, on='voice')`: the same-voice cross
product, in left order. -/
def mergeOnVoice (t1 t2 : List (String × String)) : List (String × String) :=
  (t1.map fun a => ((t2.filter fun b => b.2 = a.2).map fun b => (a.1, b.1))).flatten

/-- `pool[pool['filename'] == f]['pooling'].item()`: succeeds only when
exactly one pool row matches. -/
def poolItem (pool : List PoolRow) (f : String) : Except Err (List ℚ) :=
  match pool.filter fun p => p.filename = f with
  | [p] => .ok p.pooling
  | _ => .error (.valueError ("item() requires exactly one element"))

/-- `semantic._compute_distance_librispeech`: after asserting the pair
type and that each side has between 1 and 10 tokens, gather the pooled
vectors of both sides and average the full `cdist` cross-product of the
configured metric over them (the guarded token bound keeps both sides
nonempty; an empty pool selection would be the `NaN` mean of an empty
`cdist`, junk-valued here by `0 / 0 = 0`). -/
def compute_distance_librispeech (pair : PairsRow) (gold : List GoldRow)
    (pool : List PoolRow) (metric : List ℚ → List ℚ → ℚ) : Except Err ℚ :=
  if pair.type ≠ "librispeech" then .error .assertionError
  else
    let tokens1 := libTokens gold pair.word1
    let tokens2 := libTokens gold pair.word2
    if 0 < tokens1.length ∧ tokens1.length ≤ 10 ∧
        0 < tokens2.length ∧ tokens2.length ≤ 10 then
      let X := (pool.filter fun p => p.filename ∈ tokens1).map PoolRow.pooling
      let Y := (pool.filter fun p => p.filename ∈ tokens2).map PoolRow.pooling
      .ok (((X.map fun x => ((Y.map fun y => metric x y).sum)).sum) /
        ((X.length * Y.length : ℕ) : ℚ))
    else .error .assertionError

/-- `semantic._compute_distance_synthetic`: after asserting the pair
type, match the two sides' tokens by voice and average the metric over
the matched pairs.  There is no token-count bound here; the only
failure beyond the type assert and the `.item()` lookups is the
`ZeroDivisionError` of `dist / len(tokens)` when no voice-matched token
pair exists. -/
def compute_distance_synthetic (pair : PairsRow) (gold : List GoldRow)
    (pool : List PoolRow) (metric : List ℚ → List ℚ → ℚ) : Except Err ℚ := do
  if pair.type ≠ "synthetic" then throw .assertionError
  let tokens := mergeOnVoice (synTokens gold pair.word1) (synTokens gold pair.word2)
  let dists ← tokens.mapM fun fxy => do
    let X ← poolItem pool fxy.1
    let Y ← poolItem pool fxy.2
    pure (metric X Y)
  if tokens.length = 0 then throw .zeroDivisionError
  pure (dists.sum / (tokens.length : ℚ))

/-- `semantic._compute_distance`: dispatch on the pair type (the
source indexes a dict, so an unknown type is a `KeyError`). -/
def compute_distance (pair : PairsRow) (gold : List GoldRow)
    (pool : List PoolRow) (metric : List ℚ → List ℚ → ℚ) : Except Err ℚ :=
  if pair.type = "librispeech" then
    compute_distance_librispeech pair gold pool metric
  else if pair.type = "synthetic" then
    compute_distance_synthetic pair gold pool metric
  else .error (.keyError pair.type)

/-- One row of a (type, dataset) group handed to `_correlation`: the
two human judgment columns (either may hold missing values) and the
machine distance in `score`. -/
structure CorrRow where
  similarity : Option ℚ
  relatedness : Option ℚ
  score : ℚ
  deriving Repr, DecidableEq

/-- The human judgment column chosen by `_correlation`:
`df.similarity if df.relatedness.hasnans else df.relatedness`. -/
def humanCol (df : List CorrRow) : List (Option ℚ) :=
  if df.any fun r => r.relatedness.isNone then df.map CorrRow.similarity
  else df.map CorrRow.relatedness

/-- The fractional average rank (`scipy.stats.rankdata` / pandas
`rank()`, the ranking Spearman is the Pearson correlation of) of value
`v` within list `l`: number of strictly smaller entries plus half the
tied group, one-based. -/
def rankVal (l : List ℚ) (v : ℚ) : ℚ :=
  ((l.countP fun u => u < v : ℕ) : ℚ) +
    (((l.countP fun u => u = v : ℕ) : ℚ) + 1) / 2

/-- The average-rank vector of a list. -/
def ranks (l : List ℚ) : List ℚ := l.map (rankVal l)

/-- Pearson correlation coefficient of two equal-length samples, `NaN`
(`none`) when either variance is zero (scipy emits `nan` for constant
input). -/
noncomputable def pearson (a b : List ℚ) : Option ℝ :=
  let sxx : ℚ := (a.map fun v => (v - listMean a) ^ 2).sum
  let syy : ℚ := (b.map fun v => (v - listMean b) ^ 2).sum
  let sxy : ℚ := ((a.zip b).map fun p => (p.1 - listMean a) * (p.2 - listMean b)).sum
  if sxx = 0 ∨ syy = 0 then none
  else some ((sxy : ℝ) / Real.sqrt ((sxx : ℝ) * (syy : ℝ)))

/-- `scipy.stats.spearmanr(x, y)[0]`: the Pearson correlation of the
average-rank vectors. -/
noncomputable def spearman (x y : List ℚ) : Option ℝ :=
  pearson (ranks x) (ranks y)

/-- The rank-alignment view of one correlation group: the chosen human
judgments zipped with the machine scores. -/
def corrZ (df : List CorrRow) : List (ℚ × ℚ) :=
  (humanCol df).reduceOption.zip (df.map CorrRow.score)

/-- `semantic._correlation`: choose the fully populated judgment
column (asserting it indeed has no missing value), negate it so that
high similarity compares like low distance, and report `100 ×` the
Spearman correlation with the machine scores (`none` embeds scipy's
`nan` on degenerate input). -/
noncomputable def correlation (df : List CorrRow) : Except Err (Option ℝ) :=
  let human := humanCol df
  if human.any Option.isNone then .error .assertionError
  else
    .ok ((spearman (human.reduceOption.map Neg.neg) (df.map CorrRow.score)).map
      fun c => 100 * c)

end Semantic

/-- `[e for e in errors if e]`: the per-item error messages collected
from the parallel validation map of `phonetic.validate` and
`semantic.validate` (a `None` entry is a file that validated fine); no
error is raised inside the map itself. -/
def collectErrors (results : List (Option String)) : List String :=
  results.reduceOption

namespace Phonetic

/-- The aggregate error-reporting step of `phonetic.validate` (lines
printed, outcome): print the first 10 collected errors, then
`f'ERROR: ... and {len(errors) - 10} more!'` when there are more than
10, and raise one summary `ValidationError`. -/
def report_errors (errors : List String) (kind : String) :
    List String × Except Err Unit :=
  if errors.isEmpty then ([], .ok ())
  else
    (((errors.take 10).map fun e => "ERROR: " ++ e) ++
      (if 10 < errors.length then
        ["ERROR: ... and " ++ toString (errors.length - 10) ++ " more!"]
      else []),
     .error (.validationError ("error detected in phonetic " ++ kind)))

end Phonetic

namespace Semantic

/-- The aggregate error-reporting step of `semantic.validate`: identical
to the phonetic one except that the overflow line is the source's
non-f-string literal `'ERROR: ... and {len(errors - 10)} more!'`,
printed verbatim (and the summary message also says "phonetic"). -/
def report_errors (errors : List String) (kind : String) :
    List String × Except Err Unit :=
  if errors.isEmpty then ([], .ok ())
  else
    (((errors.take 10).map fun e => "ERROR: " ++ e) ++
      (if 10 < errors.length then
        ["ERROR: ... and \x7blen(errors - 10)\x7d more!"]
      else []),
     .error (.validationError ("error detected in phonetic " ++ kind)))

end Semantic

namespace Leaderboard

/-- Python truthiness of `location / file`: `pathlib.Path` defines
neither `__bool__` nor `__len__`, so `bool(path)` is `True` for every
path object whatsoever. -/
def pathIsTruthy (_location _file : String) : Bool := true

/-- `LexicalScores.is_valid`: presence checks via `Path.is_file()`,
raising `FileNotFoundError` in the source's order and with the source's
messages (the message of the missing test-frequency file names the dev
file, as in the source). -/
def lexical_is_valid (location : String) (files : List String) :
    Except Err Unit :=
  if "score_lexical_dev_by_length.csv" ∉ files then
    .error (.fileNotFoundError
      ("Score folder " ++ location ++ ", is missing lexical_dev_by_length score file!"))
  else if "score_lexical_test_by_length.csv" ∉ files then
    .error (.fileNotFoundError
      ("Score folder " ++ location ++ ", is missing lexical_test_by_length score file!"))
  else if "score_lexical_dev_by_frequency.csv" ∉ files then
    .error (.fileNotFoundError
      ("Score folder " ++ location ++ ", is missing lexical_dev_by_frequency score file!"))
  else if "score_lexical_test_by_frequency.csv" ∉ files then
    .error (.fileNotFoundError
      ("Score folder " ++ location ++ ", is missing lexical_dev_by_frequency score file!"))
  else if "score_lexical_dev_by_pair.csv" ∉ files then
    .error (.fileNotFoundError
      ("Score folder " ++ location ++ ", is missing lexical_dev_by_pairs score file!"))
  else if "score_lexical_test_by_pair.csv" ∉ files then
    .error (.fileNotFoundError
      ("Score folder " ++ location ++ ", is missing lexical_test_by_pairs score file!"))
  else .ok ()

/-- `SemanticScore.is_valid`: the source tests
`if not (location / self.__dev_correlation):` — the truthiness of the
path object, not `is_file()` — so neither branch can ever fire,
whatever the directory contains. -/
def semantic_is_valid (location : String) (_files : List String) :
    Except Err Unit :=
  if ¬ pathIsTruthy location ("score_semantic_dev_correlation.csv") then
    .error (.fileNotFoundError
      ("Score folder " ++ location ++ ", is missing semantic_dev_correlation score file!"))
  else if ¬ pathIsTruthy location ("score_semantic_test_correlation.csv") then
    .error (.fileNotFoundError
      ("Score folder " ++ location ++ ", is missing semantic_test_correlation score file!"))
  else .ok ()

/-- `SyntacticScores.is_valid`: same path-truthiness tests, so it never
raises either. -/
def syntactic_is_valid (location : String) (_files : List String) :
    Except Err Unit :=
  if ¬ pathIsTruthy location ("score_syntactic_dev_by_pair.csv") then
    .error (.fileNotFoundError
      ("Score folder " ++ location ++ ", is missing syntactic_dev_by_pair score file!"))
  else if ¬ pathIsTruthy location ("score_syntactic_test_by_pair.csv") then
    .error (.fileNotFoundError
      ("Score folder " ++ location ++ ", is missing syntactic_test_by_pair score file!"))
  else if ¬ pathIsTruthy location ("score_syntactic_dev_by_type.csv") then
    .error (.fileNotFoundError
      ("Score folder " ++ location ++ ", is missing syntactic_dev_by_type score file!"))
  else if ¬ pathIsTruthy location ("score_syntactic_test_by_type.csv") then
    .error (.fileNotFoundError
      ("Score folder " ++ location ++ ", is missing syntactic_test_by_type score file!"))
  else .ok ()

/-- `PhoneticScores.is_valid`: same path-truthiness test, never
raises. -/
def phonetic_is_valid (location : String) (_files : List String) :
    Except Err Unit :=
  if ¬ pathIsTruthy location ("score_phonetic.csv") then
    .error (.fileNotFoundError
      ("Score folder " ++ location ++ ", is missing phonetic score file!"))
  else .ok ()

/-- A row of a `by_pair` score CSV as read back by the leaderboard. -/
structure LexPairRow where
  word : String
  nonWord : String
  score : ℚ
  deriving Repr, DecidableEq

/-- A row of a lexical `by_frequency` score CSV (the `score` column is
taken as populated: an empty — all-OOV — band would read back as NaN,
which the leaderboard code would propagate; not modelled). -/
structure FreqRow where
  frequency : String
  n : ℕ
  score : ℚ
  std : Option ℚ
  deriving Repr, DecidableEq

/-- A row of a lexical `by_length` score CSV. -/
structure LengthRow where
  length : ℤ
  n : ℕ
  score : ℚ
  std : Option ℚ
  deriving Repr, DecidableEq

/-- A row of a syntactic `by_pair` score CSV. -/
structure SynPairRow where
  sentence : String
  nonSentence : String
  score : ℚ
  deriving Repr, DecidableEq

/-- A row of a syntactic `by_type` score CSV. -/
structure TypeRow where
  type : String
  subtype : String
  n : ℕ
  score : ℚ
  std : Option ℚ
  deriving Repr, DecidableEq

/-- A row of a semantic correlation score CSV. -/
structure CorrFileRow where
  type : String
  dataset : String
  correlation : ℚ
  deriving Repr, DecidableEq

/-- A row of the phonetic score CSV. -/
structure PhonRow where
  dataset : String
  subdataset : String
  type : String
  score : ℚ
  deriving Repr, DecidableEq

/-- The parsed content of the fixed set of score CSVs the leaderboard
reads back from the score directory. -/
structure ScoreDir where
  lexical_dev_by_pair : List LexPairRow
  lexical_test_by_pair : List LexPairRow
  lexical_dev_by_frequency : List FreqRow
  lexical_test_by_frequency : List FreqRow
  lexical_dev_by_length : List LengthRow
  lexical_test_by_length : List LengthRow
  syntactic_dev_by_pair : List SynPairRow
  syntactic_test_by_pair : List SynPairRow
  syntactic_dev_by_type : List TypeRow
  syntactic_test_by_type : List TypeRow
  semantic_dev_correlation : List CorrFileRow
  semantic_test_correlation : List CorrFileRow
  phonetic : List PhonRow
  deriving Repr, DecidableEq

/-- The per-(type, dataset) pair counts handed to `SemanticScore` by
`get_semantic_size` (`size` columns for dev and test). -/
structure SemSizes where
  dev : List ℕ
  test : List ℕ
  deriving Repr, DecidableEq

/-- `LexicalScores._score_invocab`: the n-weighted mean score over the
non-OOV frequency bands. -/
def score_invocab (frame : List FreqRow) : ℚ :=
  let keep := frame.filter fun r => r.frequency ≠ "oov"
  weightedAvg (keep.map FreqRow.score) (keep.map fun r => (r.n : ℚ))

/-- `LexicalScores.general`: `(lexical_all, lexical_invocab)`, each as a
(dev, test) pair. -/
def lexicalGeneral (scores : ScoreDir) : (ℚ × ℚ) × (ℚ × ℚ) :=
  ((listMean (scores.lexical_dev_by_pair.map LexPairRow.score),
    listMean (scores.lexical_test_by_pair.map LexPairRow.score)),
   (score_invocab scores.lexical_dev_by_frequency,
    score_invocab scores.lexical_test_by_frequency))

/-- A pandas outer merge of two frames on a shared key column, with the
left-then-unmatched-right row order and per-key cross products of
`pd.merge(..., how="outer", on=[key])`. -/
def outerMerge {α β κ : Type} [DecidableEq κ] (ka : α → κ) (kb : β → κ)
    (xs : List α) (ys : List β) : List (κ × Option α × Option β) :=
  (xs.map fun a =>
    let ms := ys.filter fun b => kb b = ka a
    if ms.isEmpty then [(ka a, some a, (none : Option β))]
    else ms.map fun b => (ka a, some a, some b)).flatten ++
  ((ys.filter fun b => xs.all fun a => ka a ≠ kb b).map fun b =>
    (kb b, (none : Option α), some b))

/-- `LexicalScores.detailed`: dev/test outer merges of the frequency and
length frames. -/
def lexicalDetailed (scores : ScoreDir) :
    List (String × Option FreqRow × Option FreqRow) ×
      List (ℤ × Option LengthRow × Option LengthRow) :=
  (outerMerge FreqRow.frequency FreqRow.frequency
    scores.lexical_dev_by_frequency scores.lexical_test_by_frequency,
   outerMerge LengthRow.length LengthRow.length
    scores.lexical_dev_by_length scores.lexical_test_by_length)

/-- One half (dev or test) of `SemanticScore.general`: plain means and
size-weighted means of the correlations, per type.  The `size` column
assignment `correlations['size'] = size` aligns positionally, modelled
by `zip`. -/
def semanticGeneralHalf (corr : List CorrFileRow) (size : List ℕ) :
    (ℚ × ℚ) × (ℚ × ℚ) :=
  let lib := (corr.filter fun r => r.type = "librispeech").map CorrFileRow.correlation
  let syn := (corr.filter fun r => r.type = "synthetic").map CorrFileRow.correlation
  let z := corr.zip size
  let libZ := z.filter fun p => p.1.type = "librispeech"
  let synZ := z.filter fun p => p.1.type = "synthetic"
  ((listMean lib, listMean syn),
   (weightedAvg (libZ.map fun p => p.1.correlation) (libZ.map fun p => (p.2 : ℚ)),
    weightedAvg (synZ.map fun p => p.1.correlation) (synZ.map fun p => (p.2 : ℚ))))

/-- One row of `SemanticScore.detailed` after the cumcount `unstack`:
the first and second correlation listed for a dataset, renamed
positionally to `librispeech` and `synthetic`. -/
structure SemDetailRow where
  dataset : String
  librispeech : Option ℚ
  synthetic : Option ℚ
  set : String
  deriving Repr, DecidableEq

/-- The `set_index(['dataset', cumcount]).unstack()` reshaping of
`SemanticScore.detailed`: datasets sorted, one row each, columns the
per-dataset correlation sequence.  The positional rename to
`['dataset', 'librispeech', 'synthetic']` raises a length-mismatch
`ValueError` unless the widest dataset group has exactly two rows. -/
def unstackCorr (corr : List CorrFileRow) (setName : String) :
    Except Err (List SemDetailRow) :=
  let ds := sortBy strLe ((corr.map CorrFileRow.dataset).dedup)
  let width := (ds.map fun d => (corr.filter fun r => r.dataset = d).length).foldr max 0
  if width = 2 then
    .ok (ds.map fun d =>
      let cs := (corr.filter fun r => r.dataset = d).map CorrFileRow.correlation
      { dataset := d, librispeech := cs.get? 0, synthetic := cs.get? 1
        set := setName })
  else .error (.valueError ("Length mismatch: columns"))

/-- `SemanticScore.detailed`: the dev reshaping followed by the test
one. -/
def semanticDetailed (scores : ScoreDir) : Except Err (List SemDetailRow) := do
  let dev ← unstackCorr scores.semantic_dev_correlation ("dev")
  let test ← unstackCorr scores.semantic_test_correlation ("test")
  pure (dev ++ test)

/-- `SyntacticScores.general`: (dev, test) mean pair scores. -/
def syntacticGeneral (scores : ScoreDir) : ℚ × ℚ :=
  (listMean (scores.syntactic_dev_by_pair.map SynPairRow.score),
   listMean (scores.syntactic_test_by_pair.map SynPairRow.score))

/-- `SyntacticScores.detailed`: dev/test outer merge of the by-type
frames on the `type` column alone. -/
def syntacticDetailed (scores : ScoreDir) :
    List (String × Option TypeRow × Option TypeRow) :=
  outerMerge TypeRow.type TypeRow.type
    scores.syntactic_dev_by_type scores.syntactic_test_by_type

/-- One lookup of `PhoneticScores.general`: build the `{type: score}`
dict of a (dataset, sub-dataset) slice — later duplicates win — and
index it (`KeyError` when the type is absent). -/
def phonGet (rows : List PhonRow) (ds sub ty : String) : Except Err ℚ :=
  match ((rows.filter fun r =>
      r.dataset = ds ∧ r.subdataset = sub ∧ r.type = ty).map PhonRow.score).getLast? with
  | some s => .ok s
  | none => .error (.keyError ty)

/-- The four (dev, test) pairs of `PhoneticScores.general`:
clean-within, clean-across, other-within, other-across. -/
def phoneticGeneral (rows : List PhonRow) :
    Except Err ((ℚ × ℚ) × (ℚ × ℚ) × (ℚ × ℚ) × (ℚ × ℚ)) := do
  let dcw ← phonGet rows ("dev") ("clean") ("within")
  let tcw ← phonGet rows ("test") ("clean") ("within")
  let dca ← phonGet rows ("dev") ("clean") ("across")
  let tca ← phonGet rows ("test") ("clean") ("across")
  let dow ← phonGet rows ("dev") ("other") ("within")
  let tow ← phonGet rows ("test") ("other") ("within")
  let doa ← phonGet rows ("dev") ("other") ("across")
  let toa ← phonGet rows ("test") ("other") ("across")
  pure ((dcw, tcw), (dca, tca), (dow, tow), (doa, toa))

/-- The submission metadata record (`meta.yaml` merged with the
filtered platform metadata); dates are carried as ISO strings. -/
structure Metadata where
  author : String
  affiliation : String
  description : String
  open_source : Bool
  train_set : String
  gpu_budget : ℚ
  visually_grounded : Bool
  parameters : List (String × String)
  submission_id : Option String
  submission_date : Option String
  submitted_by : Option String
  deriving Repr, DecidableEq

/-- The dict produced by `Metadata.to_dict`. -/
structure MetaDict where
  submitted_at : String
  author : String
  affiliation : String
  submitted_by : Option String
  submission_id : Option String
  description : String
  visually_grounded : Bool
  open_source : Bool
  train_set : String
  gpu_budget : ℚ
  parameters : List (String × String)
  deriving Repr, DecidableEq

/-- `Metadata.to_dict`: when no submission date is recorded the
`submitted_at` field is stamped with `datetime.now().isoformat()` — the
wall clock at the moment of the call, passed here explicitly as `now`. -/
def Metadata.to_dict (m : Metadata) (now : String) : MetaDict :=
  { submitted_at := match m.submission_date with
      | some d => d
      | none => now
    author := m.author
    affiliation := m.affiliation
    submitted_by := m.submitted_by
    submission_id := m.submission_id
    description := m.description
    visually_grounded := m.visually_grounded
    open_source := m.open_source
    train_set := m.train_set
    gpu_budget := m.gpu_budget
    parameters := m.parameters }

/-- The nested `more` view of a leaderboard entry. -/
structure MoreRecord where
  description : MetaDict
  lexical_by_length : List (ℤ × Option LengthRow × Option LengthRow)
  lexical_by_frequency : List (String × Option FreqRow × Option FreqRow)
  syntactic : List (String × Option TypeRow × Option TypeRow)
  semantic : List SemDetailRow
  deriving Repr, DecidableEq

/-- One JSON leaderboard record (`ZeroSpeechSubmission.leaderboard`);
the `[dev, test]` lists become pairs. -/
structure LeaderboardRecord where
  author_label : String
  set : List String
  lexical_all : ℚ × ℚ
  lexical_invocab : ℚ × ℚ
  syntactic : ℚ × ℚ
  phonetic_clean_within : ℚ × ℚ
  phonetic_clean_across : ℚ × ℚ
  phonetic_other_within : ℚ × ℚ
  phonetic_other_across : ℚ × ℚ
  semantic_synthetic : ℚ × ℚ
  semantic_librispeech : ℚ × ℚ
  weighted_semantic_synthetic : ℚ × ℚ
  weighted_semantic_librispeech : ℚ × ℚ
  more : MoreRecord
  deriving Repr, DecidableEq

/-- `SemanticScore.general`: the dev and test halves. -/
def semanticGeneral (scores : ScoreDir) (sizes : SemSizes) :
    (((ℚ × ℚ) × (ℚ × ℚ)) × ((ℚ × ℚ) × (ℚ × ℚ))) :=
  (semanticGeneralHalf scores.semantic_dev_correlation sizes.dev,
   semanticGeneralHalf scores.semantic_test_correlation sizes.test)

/-- `ZeroSpeechSubmission.leaderboard`: fold the previously computed
score tables and the metadata into one record.  `now` is the wall clock
`Metadata.to_dict` consults when the metadata has no submission date. -/
def leaderboard (scores : ScoreDir) (sizes : SemSizes) (meta : Metadata)
    (now : String) : Except Err LeaderboardRecord := do
  let ph ← phoneticGeneral scores.phonetic
  let le := lexicalGeneral scores
  let seDev := semanticGeneral scores sizes
  let sy := syntacticGeneral scores
  let semDet ← semanticDetailed scores
  let lexDet := lexicalDetailed scores
  pure
    { author_label := meta.author
      set := ["dev", "test"]
      lexical_all := le.1
      lexical_invocab := le.2
      syntactic := sy
      phonetic_clean_within := ph.1
      phonetic_clean_across := ph.2.1
      phonetic_other_within := ph.2.2.1
      phonetic_other_across := ph.2.2.2
      semantic_synthetic := (seDev.1.1.2, seDev.2.1.2)
      semantic_librispeech := (seDev.1.1.1, seDev.2.1.1)
      weighted_semantic_synthetic := (seDev.1.2.2, seDev.2.2.2)
      weighted_semantic_librispeech := (seDev.1.2.1, seDev.2.2.1)
      more :=
        { description := meta.to_dict now
          lexical_by_length := lexDet.2
          lexical_by_frequency := lexDet.1
          syntactic := syntacticDetailed scores
          semantic := semDet } }

/-- The `submitted_at` field of a leaderboard result (empty on error);
used to observe the wall-clock dependence of `leaderboard`. -/
def submittedAtOf : Except Err LeaderboardRecord → String
  | .ok rec => rec.more.description.submitted_at
  | .error _ => ""

end Leaderboard

section ConcreteInputs

/-- A two-word gold table whose submission below misses filename `B`. -/
def goldAB : List Lexical.GoldRow :=
  [{ filename := "A", id := "g1", voice := "v1", frequency := 5, word := "wa"
     length := 3, correct := 1 },
   { filename := "B", id := "g1", voice := "v1", frequency := 5, word := "wb"
     length := 3, correct := 0 }]

/-- A submission scoring only filename `A`. -/
def subAOnly : List Lexical.SubRow := [{ filename := "A", score := 9 / 10 }]

/-- A gold table whose positive and negative rows are listed in
different id orders: positives `p1, p2`, negatives `p2, p1`. -/
def goldCrossed : List Lexical.GoldRow :=
  [{ filename := "a1", id := "p1", voice := "v1", frequency := 4, word := "goodA"
     length := 5, correct := 1 },
   { filename := "a2", id := "p2", voice := "v1", frequency := 7, word := "goodB"
     length := 6, correct := 1 },
   { filename := "a3", id := "p2", voice := "v1", frequency := 7, word := "badB"
     length := 6, correct := 0 },
   { filename := "a4", id := "p1", voice := "v1", frequency := 4, word := "badA"
     length := 5, correct := 0 }]

/-- A complete submission for `goldCrossed`. -/
def subCrossed : List Lexical.SubRow :=
  [{ filename := "a1", score := 9 }, { filename := "a2", score := 8 },
   { filename := "a3", score := 2 }, { filename := "a4", score := 1 }]

/-- A syntactic gold table with the same crossed ordering. -/
def goldCrossedSyn : List Syntactic.GoldRow :=
  [{ filename := "s1", id := "p1", voice := "v1", type := "t", subtype := "u"
     transcription := "good one", correct := 1 },
   { filename := "s2", id := "p2", voice := "v1", type := "t", subtype := "u"
     transcription := "good two", correct := 1 },
   { filename := "s3", id := "p2", voice := "v1", type := "t", subtype := "u"
     transcription := "bad two", correct := 0 },
   { filename := "s4", id := "p1", voice := "v1", type := "t", subtype := "u"
     transcription := "bad one", correct := 0 }]

/-- A complete submission for `goldCrossedSyn`. -/
def subCrossedSyn : List Syntactic.SubRow :=
  [{ filename := "s1", score := 9 }, { filename := "s2", score := 8 },
   { filename := "s3", score := 2 }, { filename := "s4", score := 1 }]

/-- The frame `load_data` produces for `goldCrossed`/`subCrossed`: the
first pair carries id `p1` but the non-word text of the `p2` negative
row, because the pairing is positional. -/
def crossedData : List Lexical.DataRow :=
  [{ id := "p1", voice := "v1", frequency := 4, word := "goodA", length := 5
     scoreWord := 9, nonWord := "badB", scoreNonWord := 2 },
   { id := "p2", voice := "v1", frequency := 7, word := "goodB", length := 6
     scoreWord := 8, nonWord := "badA", scoreNonWord := 1 }]

/-- The frame `syntactic.load_data` produces for
`goldCrossedSyn`/`subCrossedSyn`, mispaired the same way. -/
def crossedDataSyn : List Syntactic.DataRow :=
  [{ id := "p1", voice := "v1", type := "t", subtype := "u"
     sentence := "good one", scoreSentence := 9
     nonSentence := "bad two", scoreNonSentence := 2 },
   { id := "p2", voice := "v1", type := "t", subtype := "u"
     sentence := "good two", scoreSentence := 8
     nonSentence := "bad one", scoreNonSentence := 1 }]

/-- A single by-pair row carrying the negative frequency `-1`, which
`pandas.cut` maps to the null band. -/
def negFreqPairs : List Lexical.PairRow :=
  [{ word := "w", nonWord := "nw", frequency := -1, length := 3, score := 1 }]

/-- A semantic gold table with 11 synthetic tokens for each of the two
words `a` and `b`, one per voice. -/
def goldEleven : List Semantic.GoldRow :=
  ((List.range 11).map fun i =>
    { filename := "a" ++ toString i, voice := "v" ++ toString i
      word := "a", type := "synthetic" }) ++
  ((List.range 11).map fun i =>
    { filename := "b" ++ toString i, voice := "v" ++ toString i
      word := "b", type := "synthetic" })

/-- Pooled vectors for every token of `goldEleven`. -/
def poolEleven : List Semantic.PoolRow :=
  goldEleven.map fun g => { filename := g.filename, pooling := [0] }

/-- The synthetic pair (a, b) evaluated over `goldEleven`. -/
def pairEleven : Semantic.PairsRow :=
  { type := "synthetic", dataset := "d", word1 := "a", word2 := "b"
    similarity := none, relatedness := none }

/-- A pluggable distance metric (identically zero) for the concrete
distance evaluations. -/
def zeroMetric : List ℚ → List ℚ → ℚ := fun _ _ => 0

/-- A librispeech pair whose first word has no token at all in the
gold table. -/
def pairNoToken : Semantic.PairsRow :=
  { type := "librispeech", dataset := "d", word1 := "missing", word2 := "b"
    similarity := none, relatedness := none }

/-- A librispeech gold table holding one token of the word `b` only. -/
def goldOneB : List Semantic.GoldRow :=
  [{ filename := "b0", voice := "v0", word := "b", type := "librispeech" }]

/-- A synthetic pair over words with no shared voice (so zero merged
token pairs). -/
def goldNoVoiceMatch : List Semantic.GoldRow :=
  [{ filename := "a0", voice := "v0", word := "a", type := "synthetic" },
   { filename := "b0", voice := "v1", word := "b", type := "synthetic" }]

/-- The synthetic pair (a, b) evaluated over `goldNoVoiceMatch`. -/
def pairNoVoiceMatch : Semantic.PairsRow :=
  { type := "synthetic", dataset := "d", word1 := "a", word2 := "b"
    similarity := none, relatedness := none }

/-- A correlation group whose fully populated relatedness column is
constant (two identical rows): scipy's Spearman correlation of constant
input is `nan`, not `+1`. -/
def corrConst : List Semantic.CorrRow :=
  [{ similarity := none, relatedness := some 1, score := 2 },
   { similarity := none, relatedness := some 1, score := 2 }]

/-- A correlation group whose machine score is a strictly decreasing
function of its fully populated relatedness column (the similarity
column holds no data at all). -/
def corrDecreasing : List Semantic.CorrRow :=
  [{ similarity := none, relatedness := some 3, score := 1 },
   { similarity := none, relatedness := some 2, score := 2 },
   { similarity := none, relatedness := some 1, score := 3 }]

/-- Eleven collected validation error messages. -/
def errsEleven : List String :=
  (List.range 11).map fun i => "err" ++ toString i

/-- A small by-pair table with non-negative frequencies. -/
def freqOkPairs : List Lexical.PairRow :=
  [{ word := "w1", nonWord := "x1", frequency := 0, length := 3, score := 1 / 2 },
   { word := "w2", nonWord := "x2", frequency := 7, length := 4, score := 1 }]

/-- A small syntactic by-pair table. -/
def typePairsEx : List Syntactic.PairRow :=
  [{ type := "t", subtype := "u", sentence := "s", nonSentence := "ns"
     score := 1 / 2 }]

/-- A concrete, fully populated score directory. -/
def scoreDirEx : Leaderboard.ScoreDir :=
  { lexical_dev_by_pair := [{ word := "w", nonWord := "nw", score := 1 }]
    lexical_test_by_pair := [{ word := "w", nonWord := "nw", score := 3 }]
    lexical_dev_by_frequency := [{ frequency := "1-5", n := 2, score := 1, std := none }]
    lexical_test_by_frequency := [{ frequency := "1-5", n := 2, score := 3, std := none }]
    lexical_dev_by_length := [{ length := 3, n := 2, score := 1, std := none }]
    lexical_test_by_length := [{ length := 3, n := 2, score := 3, std := none }]
    syntactic_dev_by_pair := [{ sentence := "s", nonSentence := "ns", score := 1 }]
    syntactic_test_by_pair := [{ sentence := "s", nonSentence := "ns", score := 3 }]
    syntactic_dev_by_type := [{ type := "t", subtype := "u", n := 1, score := 1, std := none }]
    syntactic_test_by_type := [{ type := "t", subtype := "u", n := 1, score := 3, std := none }]
    semantic_dev_correlation :=
      [{ type := "librispeech", dataset := "sSIMI", correlation := 10 },
       { type := "synthetic", dataset := "sSIMI", correlation := 20 }]
    semantic_test_correlation :=
      [{ type := "librispeech", dataset := "sSIMI", correlation := 30 },
       { type := "synthetic", dataset := "sSIMI", correlation := 40 }]
    phonetic :=
      [{ dataset := "dev", subdataset := "clean", type := "within", score := 1 },
       { dataset := "dev", subdataset := "clean", type := "across", score := 2 },
       { dataset := "dev", subdataset := "other", type := "within", score := 3 },
       { dataset := "dev", subdataset := "other", type := "across", score := 4 },
       { dataset := "test", subdataset := "clean", type := "within", score := 5 },
       { dataset := "test", subdataset := "clean", type := "across", score := 6 },
       { dataset := "test", subdataset := "other", type := "within", score := 7 },
       { dataset := "test", subdataset := "other", type := "across", score := 8 }] }

/-- Concrete semantic pair counts for `scoreDirEx`. -/
def sizesEx : Leaderboard.SemSizes := { dev := [1, 1], test := [1, 1] }

/-- A metadata record with no recorded submission date. -/
def metaNoDate : Leaderboard.Metadata :=
  { author := "auth", affiliation := "aff", description := "desc"
    open_source := true, train_set := "ts", gpu_budget := 1
    visually_grounded := false, parameters := []
    submission_id := none, submission_date := none, submitted_by := none }

/-- The same metadata record with a recorded submission date. -/
def metaWithDate : Leaderboard.Metadata :=
  { metaNoDate with submission_date := some "2021-05-01T12:00:00" }

end ConcreteInputs

section HelperLemmas

theorem insertSorted_perm {α : Type} (le : α → α → Bool) (a : α) :
    ∀ l : List α, (insertSorted le a l).Perm (a :: l) := by
  intro l
  induction l with
  | nil => simp [insertSorted]
  | cons b t ih =>
    by_cases h : le a b
    · simp [insertSorted, h]
    · simp only [insertSorted, if_neg h]
      exact (ih.cons b).trans (List.Perm.swap a b t)

theorem sortBy_perm {α : Type} (le : α → α → Bool) (l : List α) :
    (sortBy le l).Perm l := by
  induction l with
  | nil => simp [sortBy]
  | cons a t ih =>
    have : sortBy le (a :: t) = insertSorted le a (sortBy le t) := rfl
    rw [this]
    exact (insertSorted_perm le a (sortBy le t)).trans (ih.cons a)

theorem sum_map_add {β : Type} (f g : β → ℕ) (l : List β) :
    (l.map fun b => f b + g b).sum = (l.map f).sum + (l.map g).sum := by
  induction l with
  | nil => simp
  | cons b t ih => simp [ih]; omega

theorem sum_map_ite_zero {β : Type} [DecidableEq β] (x : β) (l : List β)
    (hx : x ∉ l) : (l.map fun b => if x = b then 1 else 0).sum = 0 := by
  induction l with
  | nil => simp
  | cons b t ih =>
    simp only [List.mem_cons, not_or] at hx
    simp [hx.1, ih hx.2]

theorem sum_map_ite_one {β : Type} [DecidableEq β] (x : β) (l : List β)
    (hnd : l.Nodup) (hx : x ∈ l) :
    (l.map fun b => if x = b then 1 else 0).sum = 1 := by
  induction l with
  | nil => simp at hx
  | cons b t ih =>
    rcases List.mem_cons.1 hx with h | h
    · subst h
      simp [sum_map_ite_zero x t (List.nodup_cons.1 hnd).1]
    · have hxb : x ≠ b := by
        rintro rfl
        exact (List.nodup_cons.1 hnd).1 h
      simp [hxb, ih (List.nodup_cons.1 hnd).2 h]

/-- Counting rows per key over a duplicate-free, exhaustive key list
recovers the total row count: the essence of "grouping partitions the
table". -/
theorem sum_countP_eq_length {α β : Type} [DecidableEq β]
    (l : List α) (key : α → β) (ks : List β) (hnd : ks.Nodup)
    (hmem : ∀ a ∈ l, key a ∈ ks) :
    (ks.map fun b => l.countP fun a => key a = b).sum = l.length := by
  induction l with
  | nil => simp [List.countP_nil]
  | cons a t ih =>
    have hsplit :
        (ks.map fun b => (a :: t).countP fun c => key c = b).sum =
          (ks.map fun b => t.countP fun c => key c = b).sum +
            (ks.map fun b => if key a = b then 1 else 0).sum := by
      rw [← sum_map_add]
      congr 1
      refine List.map_congr_left fun b _ => ?_
      rw [List.countP_cons]
      by_cases h : key a = b <;> simp [h]
    rw [hsplit, ih fun c hc => hmem c (List.mem_cons_of_mem a hc),
      sum_map_ite_one (key a) ks hnd (hmem a (List.mem_cons_self a t))]
    simp

/-- The grouped counts over sorted deduplicated keys sum to the list
length (pandas `groupby` over a plain key column). -/
theorem sum_countP_sorted {α β : Type} [DecidableEq β]
    (le : β → β → Bool) (l : List α) (key : α → β) :
    ((sortBy le ((l.map key).dedup)).map fun b =>
      l.countP fun a => key a = b).sum = l.length := by
  rw [((sortBy_perm le ((l.map key).dedup)).map fun b =>
    l.countP fun a => key a = b).sum_eq]
  exact sum_countP_eq_length l key _ ((l.map key).nodup_dedup)
    fun a ha => List.mem_dedup.2 (List.mem_map_of_mem key ha)

theorem zipWith_get?_eq {α β γ : Type} (f : α → β → γ) (xs : List α)
    (ys : List β) (k : ℕ) (hx : k < xs.length) (hy : k < ys.length) :
    (List.zipWith f xs ys).get? k = some (f (xs.get ⟨k, hx⟩) (ys.get ⟨k, hy⟩)) := by
  have h1 : (List.zipWith f xs ys)[k]? =
      some (f (xs.get ⟨k, hx⟩) (ys.get ⟨k, hy⟩)) := by
    rw [List.getElem?_zipWith]
    simp [List.getElem?_eq_getElem hx, List.getElem?_eq_getElem hy]
  simpa using h1

theorem mkSummary_n {κ : Type} (key : κ) (scores : List ℚ) :
    (mkSummary key scores).n = scores.length := rfl

theorem zipWith_get?_bind {α β γ : Type} (f : α → β → γ) (xs : List α)
    (ys : List β) (k : ℕ) :
    (List.zipWith f xs ys).get? k =
      (xs.get? k).bind fun a => (ys.get? k).map fun b => f a b := by
  simp only [List.get?_eq_getElem?, List.getElem?_zipWith]
  cases xs[k]? <;> cases ys[k]? <;> simp

theorem countP_le_split (l : List ℚ) (a : ℚ) :
    (l.countP fun u => u ≤ a) =
      (l.countP fun u => u < a) + (l.countP fun u => u = a) := by
  induction l with
  | nil => simp
  | cons b t ih =>
    simp only [List.countP_cons, ih]
    rcases lt_trichotomy b a with h | h | h
    · simp only [decide_eq_true_eq]
      rw [if_pos h.le, if_pos h, if_neg (ne_of_lt h)]
      omega
    · subst h
      simp [lt_irrefl b]
      omega
    · simp only [decide_eq_true_eq]
      rw [if_neg (not_le.2 h), if_neg (lt_asymm h), if_neg (ne_of_gt h)]
      omega

/-- The average rank is strictly monotone in the ranked value. -/
theorem rankVal_lt_rankVal (l : List ℚ) (a b : ℚ) (ha : a ∈ l) (hb : b ∈ l)
    (hab : a < b) : Semantic.rankVal l a < Semantic.rankVal l b := by
  have hmono : (l.countP fun u => u ≤ a) ≤ l.countP fun u => u < b := by
    apply List.countP_mono_left
    intro u _ h
    simp only [decide_eq_true_eq] at h ⊢
    linarith
  have hea : 1 ≤ l.countP fun u => u = a :=
    List.countP_pos_iff.2 ⟨a, ha, by simp⟩
  have heb : 1 ≤ l.countP fun u => u = b :=
    List.countP_pos_iff.2 ⟨b, hb, by simp⟩
  have hkey : (l.countP fun u => u < a) + (l.countP fun u => u = a) ≤
      l.countP fun u => u < b := by
    rw [← countP_le_split]
    exact hmono
  unfold Semantic.rankVal
  have h1 := (Nat.cast_le (α := ℚ)).2 hkey
  have h2 := (Nat.cast_le (α := ℚ)).2 hea
  have h3 := (Nat.cast_le (α := ℚ)).2 heb
  push_cast at h1 h2 h3
  linarith

/-- When the pairs of `z` relate first components strictly decreasingly
to second components (with ties mapped to ties), the average ranks of
the negated first components coincide pointwise with those of the
second components. -/
theorem ranks_eq_of_pairwise (z : List (ℚ × ℚ))
    (hlt : ∀ p ∈ z, ∀ q ∈ z, p.1 < q.1 → q.2 < p.2)
    (heq : ∀ p ∈ z, ∀ q ∈ z, p.1 = q.1 → p.2 = q.2) :
    Semantic.ranks (z.map fun p => -p.1) = Semantic.ranks (z.map fun p => p.2) := by
  unfold Semantic.ranks
  rw [List.map_map, List.map_map]
  refine List.map_congr_left fun p hp => ?_
  show Semantic.rankVal (z.map fun q => -q.1) (-p.1) =
    Semantic.rankVal (z.map fun q => q.2) p.2
  have hcl : ((z.map fun q => -q.1).countP fun u => u < -p.1) =
      (z.map fun q => q.2).countP fun u => u < p.2 := by
    rw [List.countP_map, List.countP_map]
    refine List.countP_congr fun q hq => ?_
    simp only [Function.comp_apply, decide_eq_true_eq]
    constructor
    · intro h
      exact hlt p hp q hq (by linarith)
    · intro h
      rcases lt_trichotomy p.1 q.1 with h2 | h2 | h2
      · linarith
      · have := heq p hp q hq h2
        linarith
      · have := hlt q hq p hp h2
        linarith
  have hce : ((z.map fun q => -q.1).countP fun u => u = -p.1) =
      (z.map fun q => q.2).countP fun u => u = p.2 := by
    rw [List.countP_map, List.countP_map]
    refine List.countP_congr fun q hq => ?_
    simp only [Function.comp_apply, decide_eq_true_eq]
    constructor
    · intro h
      have h1 : q.1 = p.1 := by linarith [neg_injective h]
      exact heq q hq p hp h1
    · intro h
      rcases lt_trichotomy p.1 q.1 with h2 | h2 | h2
      · have := hlt p hp q hq h2
        linarith
      · rw [h2]
      · have := hlt q hq p hp h2
        linarith
  unfold Semantic.rankVal
  rw [hcl, hce]

theorem zip_self_eq_map (l : List ℚ) : l.zip l = l.map fun a => (a, a) := by
  induction l with
  | nil => rfl
  | cons a t ih => simp [ih]

/-- A list containing two distinct members has positive summed squared
deviation from its mean. -/
theorem sum_sq_dev_pos (l : List ℚ) (a b : ℚ) (ha : a ∈ l) (hb : b ∈ l)
    (hab : a ≠ b) : 0 < (l.map fun v => (v - listMean l) ^ 2).sum := by
  obtain ⟨c, hc, hcm⟩ : ∃ c ∈ l, c ≠ listMean l := by
    rcases eq_or_ne a (listMean l) with h | h
    · exact ⟨b, hb, fun h2 => hab (h.trans h2.symm)⟩
    · exact ⟨a, ha, h⟩
  have h0 : 0 < (c - listMean l) ^ 2 := by
    have hne : c - listMean l ≠ 0 := sub_ne_zero.2 hcm
    positivity
  have hmem : (c - listMean l) ^ 2 ∈ l.map fun v => (v - listMean l) ^ 2 :=
    List.mem_map_of_mem _ hc
  have hle := List.single_le_sum
    (l := l.map fun v => (v - listMean l) ^ 2)
    (fun x hx => by
      obtain ⟨v, -, rfl⟩ := List.mem_map.1 hx
      positivity) _ hmem
  linarith

/-- Pearson correlation of a non-constant sample with itself is `1`. -/
theorem pearson_self_of_pos (r : List ℚ)
    (h : 0 < (r.map fun v => (v - listMean r) ^ 2).sum) :
    Semantic.pearson r r = some 1 := by
  have hsxy : ((r.zip r).map fun p =>
      (p.1 - listMean r) * (p.2 - listMean r)).sum =
      (r.map fun v => (v - listMean r) ^ 2).sum := by
    rw [zip_self_eq_map, List.map_map]
    congr 1
    refine List.map_congr_left fun v _ => ?_
    simp [pow_two]
  simp only [Semantic.pearson, hsxy]
  rw [if_neg (by push_neg; exact ⟨h.ne', h.ne'⟩)]
  congr 1
  rw [Real.sqrt_mul_self (by positivity)]
  rw [div_self (by exact_mod_cast h.ne')]

/-- Every non-negative frequency is assigned one of the five declared
bands. -/
theorem freqBand_mem_of_nonneg (f : ℚ) (hf : 0 ≤ f) :
    Lexical.freqBand f ∈ Lexical.allFreqBands.map some := by
  unfold Lexical.freqBand
  split_ifs <;> simp_all [Lexical.allFreqBands]

end HelperLemmas

section Claims

/-- **C1** — For every aligned row with positive score `p` and negative
score `n` (any rational values, negative and zero included), the pair
comparison score computed by `evaluate_by_pair` (lexical and syntactic,
both of which apply `pairScore` row-wise) is `1` when `p > n`, `1/2`
when `p = n` and `0` when `p < n`. -/
theorem pair_comparison_score_trichotomy (p n : ℚ) :
    (n < p → pairScore p n = 1) ∧
    (p = n → pairScore p n = 1 / 2) ∧
    (p < n → pairScore p n = 0) ∧
    (∀ d : Lexical.DataRow, Lexical.evaluate_by_pair [d] =
      [{ word := d.word, nonWord := d.nonWord, frequency := d.frequency
         length := d.length, score := pairScore d.scoreWord d.scoreNonWord }]) ∧
    (∀ d : Syntactic.DataRow, Syntactic.evaluate_by_pair [d] =
      [{ type := d.type, subtype := d.subtype, sentence := d.sentence
         nonSentence := d.nonSentence
         score := pairScore d.scoreSentence d.scoreNonSentence }]) := by
  refine ⟨fun h => ?_, fun h => ?_, fun h => ?_, fun d => ?_, fun d => ?_⟩
  · simp [pairScore, h, ne_of_gt, ne_of_lt, not_lt.2 h.le, le_of_lt]
  · simp [pairScore, h, ne_of_gt, ne_of_lt]
  · simp [pairScore, h, ne_of_gt, ne_of_lt, not_lt.2 h.le, le_of_lt]
  · simp [Lexical.evaluate_by_pair, sortBy, insertSorted, listMean]
  · simp [Syntactic.evaluate_by_pair, sortBy, insertSorted, listMean]

/-- Witness for C1 at concrete score pairs. -/
theorem pair_comparison_score_trichotomy_witness :
    pairScore 1 0 = 1 ∧ pairScore (1 / 2) (1 / 2) = 1 / 2 ∧
      pairScore 0 1 = 0 :=
  ⟨(pair_comparison_score_trichotomy 1 0).1 (by norm_num),
   (pair_comparison_score_trichotomy (1 / 2) (1 / 2)).2.1 rfl,
   (pair_comparison_score_trichotomy 0 1).2.2.1 (by norm_num)⟩

/-- **C2, counterexample** — On a gold table with keys `A, B` and a
submission holding only `A`, `load_data` raises the generic
`ValueError('mismatch between gold and submission !')`, which is not a
`MismatchError` and carries neither the missing key `B` nor any extras. -/
theorem load_data_mismatch_counterexample :
    Lexical.load_data goldAB subAOnly =
      .error (.valueError ("mismatch between gold and submission !")) ∧
    errIsMismatch (Lexical.load_data goldAB subAOnly) = false := by
  decide

/-- **C2, amended** — When the gold and submission key sets differ,
`load_data` raises a generic `ValueError` carrying no key information;
the `MismatchError` belongs to the separate `validate` stage, and it
carries the full required and submitted filename collections rather
than the missing/extra difference sets. -/
theorem load_data_mismatch_amended (gold : List Lexical.GoldRow)
    (sub : List Lexical.SubRow) (required submitted : List String)
    (hkeys : sameKeys (gold.map Lexical.GoldRow.filename)
      (sub.map Lexical.SubRow.filename) = false)
    (hdup : duplicateItems submitted = [])
    (hne : sameKeys required submitted = false) :
    Lexical.load_data gold sub =
      .error (.valueError ("mismatch between gold and submission !")) ∧
    Lexical.validate_filenames required submitted =
      .error (.mismatchError ("mismatch in filenames") required submitted) := by
  constructor
  · simp [Lexical.load_data, hkeys]
  · simp [Lexical.validate_filenames, hdup, hne]

/-- Witness for the amended C2 at the concrete missing-key scenario. -/
theorem load_data_mismatch_amended_witness :
    Lexical.load_data goldAB subAOnly =
      .error (.valueError ("mismatch between gold and submission !")) ∧
    Lexical.validate_filenames ["A", "B"] ["A"] =
      .error (.mismatchError ("mismatch in filenames") ["A", "B"] ["A"]) :=
  load_data_mismatch_amended goldAB subAOnly ["A", "B"] ["A"]
    (by decide) (by decide) (by decide)

/-- **C3** — `evaluate_by_frequency` assigns every non-negative
frequency to exactly one of the ordered half-open bands `[0,1)`,
`[1,5)`, `[5,20)`, `[20,100)`, `[100,∞)` (so frequency `0` gets the
dedicated `oov` band): `freqBand` is some band on all of `[0,∞)` and
each band label characterises exactly its interval. -/
theorem freqBand_partitions (f : ℚ) (hf : 0 ≤ f) :
    (Lexical.freqBand f).isSome = true ∧
    (Lexical.freqBand f = some .oov ↔ f < 1) ∧
    (Lexical.freqBand f = some .b1to5 ↔ 1 ≤ f ∧ f < 5) ∧
    (Lexical.freqBand f = some .b6to20 ↔ 5 ≤ f ∧ f < 20) ∧
    (Lexical.freqBand f = some .b21to100 ↔ 20 ≤ f ∧ f < 100) ∧
    (Lexical.freqBand f = some .gt100 ↔ 100 ≤ f) := by
  rcases lt_or_le f 1 with hA | hA
  · have he : Lexical.freqBand f = some .oov := by
      unfold Lexical.freqBand
      rw [if_pos ⟨hf, hA⟩]
    refine ⟨by simp [he], by simp [he, hA], ?_, ?_, ?_, ?_⟩ <;>
      simp [he] <;> intros <;> linarith
  rcases lt_or_le f 5 with hB | hB
  · have he : Lexical.freqBand f = some .b1to5 := by
      unfold Lexical.freqBand
      rw [if_neg (by rintro ⟨-, h⟩; linarith), if_pos ⟨hA, hB⟩]
    refine ⟨by simp [he], ?_, by simp [he, hA, hB], ?_, ?_, ?_⟩ <;>
      simp [he] <;> intros <;> linarith
  rcases lt_or_le f 20 with hC | hC
  · have he : Lexical.freqBand f = some .b6to20 := by
      unfold Lexical.freqBand
      rw [if_neg (by rintro ⟨-, h⟩; linarith),
        if_neg (by rintro ⟨-, h⟩; linarith), if_pos ⟨hB, hC⟩]
    refine ⟨by simp [he], ?_, ?_, by simp [he, hB, hC], ?_, ?_⟩ <;>
      simp [he] <;> intros <;> linarith
  rcases lt_or_le f 100 with hD | hD
  · have he : Lexical.freqBand f = some .b21to100 := by
      unfold Lexical.freqBand
      rw [if_neg (by rintro ⟨-, h⟩; linarith),
        if_neg (by rintro ⟨-, h⟩; linarith),
        if_neg (by rintro ⟨-, h⟩; linarith), if_pos ⟨hC, hD⟩]
    refine ⟨by simp [he], ?_, ?_, ?_, by simp [he, hC, hD], ?_⟩ <;>
      simp [he] <;> intros <;> linarith
  · have he : Lexical.freqBand f = some .gt100 := by
      unfold Lexical.freqBand
      rw [if_neg (by rintro ⟨-, h⟩; linarith),
        if_neg (by rintro ⟨-, h⟩; linarith),
        if_neg (by rintro ⟨-, h⟩; linarith),
        if_neg (by rintro ⟨-, h⟩; linarith), if_pos hD]
    refine ⟨by simp [he], ?_, ?_, ?_, ?_, by simp [he, hD]⟩ <;>
      simp [he] <;> intros <;> linarith

/-- Witness for C3 at frequency `0` (the `oov` band). -/
theorem freqBand_partitions_witness :
    (Lexical.freqBand 0).isSome = true ∧ Lexical.freqBand 0 = some .oov :=
  ⟨(freqBand_partitions 0 le_rfl).1,
   ((freqBand_partitions 0 le_rfl).2.1).2 (by norm_num)⟩

/-- **C4, amended** — The banding aggregators partition the pairs: the
`n` counts of the summary rows sum to the total pair count — for the
frequency bands under the proviso (forced by the counterexample) that
every frequency is non-negative, since `pandas.cut` assigns a negative
frequency the null band and `groupby` then drops the row silently; the
length and type summaries partition unconditionally, and one-member
bands are kept (their `std` is `NaN`). -/
theorem banding_partitions (by_pair : List Lexical.PairRow)
    (syn_pairs : List Syntactic.PairRow)
    (hfreq : ∀ r ∈ by_pair, 0 ≤ r.frequency) :
    ((Lexical.evaluate_by_frequency by_pair).map fun s => s.n).sum =
      by_pair.length ∧
    ((Lexical.evaluate_by_length by_pair).map fun s => s.n).sum =
      by_pair.length ∧
    ((Syntactic.evaluate_by_type syn_pairs).map fun s => s.n).sum =
      syn_pairs.length := by
  refine ⟨?_, ?_, ?_⟩
  · have h1 : ((Lexical.evaluate_by_frequency by_pair).map fun s => s.n) =
        (Lexical.allFreqBands.map some).map fun k =>
          by_pair.countP fun r => Lexical.freqBand (r.frequency : ℚ) = k := by
      simp [Lexical.evaluate_by_frequency, mkSummary_n, List.map_map,
        Function.comp_def, List.countP_eq_length_filter]
    rw [h1]
    refine sum_countP_eq_length by_pair _ _ (by decide) fun a ha => ?_
    exact freqBand_mem_of_nonneg _ (by exact_mod_cast hfreq a ha)
  · have h2 : ((Lexical.evaluate_by_length by_pair).map fun s => s.n) =
        (sortBy Lexical.intLe ((by_pair.map Lexical.PairRow.length).dedup)).map
          fun v => by_pair.countP fun r => r.length = v := by
      simp [Lexical.evaluate_by_length, mkSummary_n, List.map_map,
        Function.comp_def, List.countP_eq_length_filter]
    rw [h2]
    exact sum_countP_sorted Lexical.intLe by_pair Lexical.PairRow.length
  · have h3 : ((Syntactic.evaluate_by_type syn_pairs).map fun s => s.n) =
        (sortBy Syntactic.pairLe
          ((syn_pairs.map fun r => (r.type, r.subtype)).dedup)).map
          fun k => syn_pairs.countP fun r => (r.type, r.subtype) = k := by
      simp [Syntactic.evaluate_by_type, mkSummary_n, List.map_map,
        Function.comp_def, List.countP_eq_length_filter]
    rw [h3]
    exact sum_countP_sorted Syntactic.pairLe syn_pairs fun r => (r.type, r.subtype)

/-- **C4, counterexample** — A by-pair table consisting of one row with
frequency `-1` has a frequency summary whose counts sum to `0`, not to
the table length `1`: the pair is silently dropped from every band. -/
theorem banding_negative_frequency_dropped :
    ((Lexical.evaluate_by_frequency negFreqPairs).map fun s => s.n).sum = 0 ∧
    negFreqPairs.length = 1 := by
  constructor
  · rfl
  · rfl

/-- Witness for the amended C4 at concrete tables. -/
theorem banding_partitions_witness :
    ((Lexical.evaluate_by_frequency freqOkPairs).map fun s => s.n).sum =
      freqOkPairs.length ∧
    ((Lexical.evaluate_by_length freqOkPairs).map fun s => s.n).sum =
      freqOkPairs.length ∧
    ((Syntactic.evaluate_by_type typePairsEx).map fun s => s.n).sum =
      typePairsEx.length :=
  banding_partitions freqOkPairs typePairsEx (by decide)

/-- **C7** — Of the four leaderboard score extractors only the lexical
one actually verifies file presence: `SemanticScore.is_valid`,
`SyntacticScores.is_valid` and `PhoneticScores.is_valid` test the
truthiness of a `pathlib.Path` object (always true) instead of
`is_file()`, so they return without raising no matter which score files
are absent, contradicting their own "Verify that all files are present"
contract; `LexicalScores.is_valid` does raise a `FileNotFoundError` on
an empty score directory. -/
theorem is_valid_path_truthiness_bug :
    (∀ (loc : String) (files : List String),
      Leaderboard.semantic_is_valid loc files = .ok ()) ∧
    (∀ (loc : String) (files : List String),
      Leaderboard.syntactic_is_valid loc files = .ok ()) ∧
    (∀ (loc : String) (files : List String),
      Leaderboard.phonetic_is_valid loc files = .ok ()) ∧
    Leaderboard.lexical_is_valid ("scores") [] =
      .error (.fileNotFoundError
        ("Score folder scores, is missing lexical_dev_by_length score file!")) := by
  refine ⟨fun loc files => ?_, fun loc files => ?_, fun loc files => ?_,
    by decide⟩ <;>
  simp [Leaderboard.semantic_is_valid, Leaderboard.syntactic_is_valid,
    Leaderboard.phonetic_is_valid, Leaderboard.pathIsTruthy]

/-- **C9** — Per-item validation errors are collected (not raised
inside the parallel map) and reported once as a single summary
`ValidationError` after at most 10 printed items; but on more than 10
collected errors the overflow line of `semantic.validate` is the
verbatim non-f-string literal of the source instead of a count of the
remaining errors, while `phonetic.validate` prints the count as
documented. -/
theorem error_report_aggregation :
    collectErrors [none, some ("a"), none, some ("b")] = ["a", "b"] ∧
    Phonetic.report_errors errsEleven ("dev") =
      (((errsEleven.take 10).map fun e => "ERROR: " ++ e) ++
        ["ERROR: ... and 1 more!"],
       .error (.validationError ("error detected in phonetic dev"))) ∧
    Semantic.report_errors errsEleven ("dev") =
      (((errsEleven.take 10).map fun e => "ERROR: " ++ e) ++
        ["ERROR: ... and \x7blen(errors - 10)\x7d more!"],
       .error (.validationError ("error detected in phonetic dev"))) := by
  decide

/-- **C5, amended** — The 1-to-10 token bound is enforced — loudly, by
`assert` — only in the librispeech (unaligned) distance variant; the
synthetic (voice-aligned) variant performs no token-count check at all:
it fails only with a `ZeroDivisionError` when not a single voice-matched
token pair exists, and otherwise computes a distance even for sides
with more than 10 tokens (see the counterexample). -/
theorem token_bound_enforcement (pair : Semantic.PairsRow)
    (gold : List Semantic.GoldRow) (pool : List Semantic.PoolRow)
    (metric : List ℚ → List ℚ → ℚ) :
    (pair.type = "librispeech" →
      ((Semantic.libTokens gold pair.word1).length = 0 ∨
        10 < (Semantic.libTokens gold pair.word1).length ∨
        (Semantic.libTokens gold pair.word2).length = 0 ∨
        10 < (Semantic.libTokens gold pair.word2).length) →
      Semantic.compute_distance_librispeech pair gold pool metric =
        .error .assertionError) ∧
    (pair.type = "synthetic" →
      Semantic.mergeOnVoice (Semantic.synTokens gold pair.word1)
        (Semantic.synTokens gold pair.word2) = [] →
      Semantic.compute_distance_synthetic pair gold pool metric =
        .error .zeroDivisionError) := by
  constructor
  · intro hlib hbad
    simp only [Semantic.compute_distance_librispeech, hlib]
    rw [if_neg (by simp), if_neg (by rintro ⟨h1, h2, h3, h4⟩; omega)]
  · intro hsyn htok
    simp only [Semantic.compute_distance_synthetic, hsyn, htok]
    rfl

/-- **C5, counterexample** — A synthetic pair with 11 tokens on each
side (well above the fixed maximum of 10) does not fail: the synthetic
variant quietly computes a distance. -/
theorem synthetic_token_bound_unenforced :
    (Semantic.synTokens goldEleven ("a")).length = 11 ∧
    (Semantic.synTokens goldEleven ("b")).length = 11 ∧
    (Semantic.compute_distance_synthetic pairEleven goldEleven poolEleven
      zeroMetric).isOk = true := by
  refine ⟨by decide, by decide, by rfl⟩

/-- Witness for the amended C5: a librispeech pair with a zero-token
side is rejected by the assert, a synthetic pair with no voice-matched
tokens dies on the division. -/
theorem token_bound_enforcement_witness :
    Semantic.compute_distance_librispeech pairNoToken goldOneB [] zeroMetric =
      .error .assertionError ∧
    Semantic.compute_distance_synthetic pairNoVoiceMatch goldNoVoiceMatch []
      zeroMetric = .error .zeroDivisionError :=
  ⟨(token_bound_enforcement pairNoToken goldOneB [] zeroMetric).1
      (by decide) (by decide),
   (token_bound_enforcement pairNoVoiceMatch goldNoVoiceMatch [] zeroMetric).2
      (by decide) (by decide)⟩

/-- **C8, counterexample** — With a metadata record lacking a
submission date, two leaderboard runs at different wall-clock instants
produce different records (`Metadata.to_dict` stamps `submitted_at`
with `datetime.now()`), so the aggregation is not idempotent as
claimed. -/
theorem leaderboard_now_dependent :
    Leaderboard.leaderboard scoreDirEx sizesEx metaNoDate
      ("2021-01-01T00:00:00") ≠
    Leaderboard.leaderboard scoreDirEx sizesEx metaNoDate
      ("2021-01-02T00:00:00") := by
  intro h
  have h2 := congrArg Leaderboard.submittedAtOf h
  have h3 : ("2021-01-01T00:00:00" : String) = "2021-01-02T00:00:00" := h2
  exact absurd h3 (by decide)

/-- **C8, amended** — For a fixed set of score files, fixed sizes and a
fixed metadata record that carries a submission date, the leaderboard
aggregation is a pure function of its inputs: two runs (any two
wall-clock readings) produce identical records. -/
theorem leaderboard_deterministic_with_date (scores : Leaderboard.ScoreDir)
    (sizes : Leaderboard.SemSizes) (meta : Leaderboard.Metadata)
    (now1 now2 d : String) (hd : meta.submission_date = some d) :
    Leaderboard.leaderboard scores sizes meta now1 =
      Leaderboard.leaderboard scores sizes meta now2 := by
  have hdict : ∀ n, Leaderboard.Metadata.to_dict meta n =
      Leaderboard.Metadata.to_dict meta d := by
    intro n
    simp [Leaderboard.Metadata.to_dict, hd]
  simp [Leaderboard.leaderboard, hdict]

/-- Witness for the amended C8 at the concrete dated metadata record. -/
theorem leaderboard_deterministic_witness :
    Leaderboard.leaderboard scoreDirEx sizesEx metaWithDate
      ("2021-01-01T00:00:00") =
    Leaderboard.leaderboard scoreDirEx sizesEx metaWithDate
      ("2021-01-02T00:00:00") :=
  leaderboard_deterministic_with_date scoreDirEx sizesEx metaWithDate _ _
    ("2021-05-01T12:00:00") (by decide)

/-- **C10** — `load_data` (lexical and syntactic) pairs rows
positionally: the k-th row of the output combines the k-th
`correct == 1` row with the k-th `correct == 0` row of the merged
table, taking id, voice and the attribute columns from the positive row
and only the (non-word / non-sentence) text and score from the negative
row, with no check that the two rows share an id or voice — on the
crossed gold table the first pair carries id `p1` together with the
non-word of the `p2` row. -/
theorem load_data_pairs_positionally :
    (∀ (gold : List Lexical.GoldRow) (sub : List Lexical.SubRow)
        (data : List Lexical.DataRow) (k : ℕ),
      Lexical.load_data gold sub = .ok data →
      data.get? k =
        ((Lexical.wRows (Lexical.mergeScores gold sub)).get? k).bind fun w =>
          ((Lexical.nwRows (Lexical.mergeScores gold sub)).get? k).map fun nw =>
            Lexical.mkDataRow w nw) ∧
    (∀ (gold : List Syntactic.GoldRow) (sub : List Syntactic.SubRow)
        (data : List Syntactic.DataRow) (k : ℕ),
      Syntactic.load_data gold sub = .ok data →
      data.get? k =
        ((Syntactic.sRows (Syntactic.mergeScores gold sub)).get? k).bind fun s =>
          ((Syntactic.nsRows (Syntactic.mergeScores gold sub)).get? k).map fun ns =>
            Syntactic.mkDataRow s ns) ∧
    Lexical.load_data goldCrossed subCrossed = .ok crossedData ∧
    (goldCrossed.filter fun g => g.word = "badB").map Lexical.GoldRow.id =
      ["p2"] ∧
    Syntactic.load_data goldCrossedSyn subCrossedSyn = .ok crossedDataSyn := by
  refine ⟨?_, ?_, by decide, by decide, by decide⟩
  · intro gold sub data k hload
    unfold Lexical.load_data at hload
    split_ifs at hload with hc
    obtain rfl : List.zipWith Lexical.mkDataRow
        (Lexical.wRows (Lexical.mergeScores gold sub))
        (Lexical.nwRows (Lexical.mergeScores gold sub)) = data := by
      simpa using hload
    exact zipWith_get?_bind _ _ _ k
  · intro gold sub data k hload
    unfold Syntactic.load_data at hload
    split_ifs at hload with hc
    obtain rfl : List.zipWith Syntactic.mkDataRow
        (Syntactic.sRows (Syntactic.mergeScores gold sub))
        (Syntactic.nsRows (Syntactic.mergeScores gold sub)) = data := by
      simpa using hload
    exact zipWith_get?_bind _ _ _ k

/-- Witness for C10: the positional-pairing equation applied to the
crossed gold table at position 0. -/
theorem load_data_pairs_positionally_witness :
    crossedData.get? 0 =
      ((Lexical.wRows (Lexical.mergeScores goldCrossed subCrossed)).get? 0).bind
        fun w =>
          ((Lexical.nwRows
            (Lexical.mergeScores goldCrossed subCrossed)).get? 0).map fun nw =>
            Lexical.mkDataRow w nw :=
  load_data_pairs_positionally.1 goldCrossed subCrossed crossedData 0 (by decide)

/-- **C6, amended** — For every correlation group whose machine score
column is a strictly decreasing function of the chosen, fully populated
human judgment column (the other judgment column may hold no data at
all), and whose human column takes at least two distinct values (forced
by the counterexample: scipy yields `nan` on constant input), the
sign-adjusted Spearman correlation `_correlation` reports is exactly
`+1` — returned, as the source scales to percent, as `100`. -/
theorem correlation_of_strictly_decreasing (df : List Semantic.CorrRow)
    (hfull : ∀ o ∈ Semantic.humanCol df, o.isSome = true)
    (hlt : ∀ p ∈ Semantic.corrZ df, ∀ q ∈ Semantic.corrZ df,
      p.1 < q.1 → q.2 < p.2)
    (heq : ∀ p ∈ Semantic.corrZ df, ∀ q ∈ Semantic.corrZ df,
      p.1 = q.1 → p.2 = q.2)
    (hnd : ∃ p ∈ Semantic.corrZ df, ∃ q ∈ Semantic.corrZ df, p.1 ≠ q.1) :
    Semantic.correlation df = .ok (some 100) := by
  have hguard : (Semantic.humanCol df).any Option.isNone = false := by
    by_contra hc
    rw [Bool.not_eq_false, List.any_eq_true] at hc
    obtain ⟨o, ho, hno⟩ := hc
    have hs := hfull o ho
    cases o
    · simp at hs
    · simp at hno
  have hlen2 : (Semantic.humanCol df).length = df.length := by
    unfold Semantic.humanCol
    split <;> simp
  have hlen1 : (Semantic.humanCol df).reduceOption.length = df.length := by
    rw [List.reduceOption_length_eq_iff.mpr hfull, hlen2]
  have hfst : (Semantic.corrZ df).map Prod.fst =
      (Semantic.humanCol df).reduceOption := by
    unfold Semantic.corrZ
    exact List.map_fst_zip _ _ (by simp [hlen1])
  have hsnd : (Semantic.corrZ df).map (fun p => p.2) =
      df.map Semantic.CorrRow.score := by
    unfold Semantic.corrZ
    exact List.map_snd_zip _ _ (by simp [hlen1])
  set X := (Semantic.corrZ df).map (fun p => -p.1) with hXdef
  have hX : (Semantic.humanCol df).reduceOption.map Neg.neg = X := by
    rw [hXdef, ← hfst, List.map_map]
    rfl
  obtain ⟨p, hp, q, hq, hpq⟩ := hnd
  have hmemp : -p.1 ∈ X := List.mem_map_of_mem _ hp
  have hmemq : -q.1 ∈ X := List.mem_map_of_mem _ hq
  have hrne : Semantic.rankVal X (-p.1) ≠ Semantic.rankVal X (-q.1) := by
    have hne : -p.1 ≠ -q.1 := fun h => hpq (neg_injective h)
    rcases hne.lt_or_lt with h | h
    · exact ne_of_lt (rankVal_lt_rankVal X _ _ hmemp hmemq h)
    · exact (ne_of_lt (rankVal_lt_rankVal X _ _ hmemq hmemp h)).symm
  have hrp : Semantic.rankVal X (-p.1) ∈ Semantic.ranks X :=
    List.mem_map_of_mem _ hmemp
  have hrq : Semantic.rankVal X (-q.1) ∈ Semantic.ranks X :=
    List.mem_map_of_mem _ hmemq
  have hpos : 0 < ((Semantic.ranks X).map fun v =>
      (v - listMean (Semantic.ranks X)) ^ 2).sum :=
    sum_sq_dev_pos _ _ _ hrp hrq hrne
  have hspear : Semantic.spearman
      ((Semantic.humanCol df).reduceOption.map Neg.neg)
      (df.map Semantic.CorrRow.score) = some 1 := by
    unfold Semantic.spearman
    have e1 : Semantic.ranks ((Semantic.humanCol df).reduceOption.map Neg.neg) =
        Semantic.ranks X := by rw [hX]
    have e2 : Semantic.ranks (df.map Semantic.CorrRow.score) =
        Semantic.ranks X := by
      rw [← hsnd, hXdef]
      exact (ranks_eq_of_pairwise _ hlt heq).symm
    rw [e1, e2]
    exact pearson_self_of_pos _ hpos
  simp only [Semantic.correlation]
  rw [if_neg (by simp [hguard]), hspear]
  norm_num

/-- **C6, counterexample** — A group whose fully populated relatedness
column is constant (score trivially a strictly decreasing function of
it) yields `nan` (`none`), not `+1`: scipy's Spearman correlation of a
constant sample is undefined. -/
theorem correlation_constant_counterexample :
    (∀ p ∈ Semantic.corrZ corrConst, ∀ q ∈ Semantic.corrZ corrConst,
      (p.1 < q.1 → q.2 < p.2) ∧ (p.1 = q.1 → p.2 = q.2)) ∧
    (∀ o ∈ Semantic.humanCol corrConst, o.isSome = true) ∧
    Semantic.correlation corrConst = .ok none := by
  refine ⟨by decide, by decide, ?_⟩
  have h1 : Semantic.humanCol corrConst = [some 1, some 1] := by decide
  have h2 : Semantic.spearman ((Semantic.humanCol corrConst).reduceOption.map
      Neg.neg) (corrConst.map Semantic.CorrRow.score) = none := by
    rw [h1]
    show Semantic.pearson (Semantic.ranks [-1, -1])
      (Semantic.ranks [2, 2]) = none
    have hr1 : Semantic.ranks [-1, -1] = [3 / 2, 3 / 2] := by
      norm_num [Semantic.ranks, Semantic.rankVal, List.countP_cons]
    have hr2 : Semantic.ranks [2, 2] = [3 / 2, 3 / 2] := by
      norm_num [Semantic.ranks, Semantic.rankVal, List.countP_cons]
    rw [hr1, hr2]
    simp only [Semantic.pearson]
    rw [if_pos]
    left
    norm_num [listMean]
  simp only [Semantic.correlation]
  rw [if_neg (by rw [h1]; simp), h2]
  rfl

/-- Witness for the amended C6 at a three-row group whose scores
strictly decrease in the relatedness judgments. -/
theorem correlation_of_strictly_decreasing_witness :
    Semantic.correlation corrDecreasing = .ok (some 100) :=
  correlation_of_strictly_decreasing corrDecreasing (by decide) (by decide)
    (by decide) (by decide)

end Claims
